import Mathlib

/-!
Shallow embedding of the ANT+ broadcast encoder/transmitter subsystem of
the kettler-to-ant repository (`components/ant_broadcaster.py`,
`components/ant_writer.py`, `components/kettler_serial.py`,
`components/ant.py`, `ant_support/ant.py`), together with theorems
settling the frozen claims about it.

Machine integers are modelled as `Nat`/`Int` with explicit `% 2^w` where
the Python code masks with `& 0xff` / `& 0xffff`; Python real-number
division followed by `int(...)` truncation is modelled as exact natural
division of the scaled integers (for the inputs in range, the IEEE
double computations of the source agree with the exact values).
-/

namespace KettlerToAnt

/-- Byte `i` of an 8-byte payload list (payloads here always have length 8). -/
def byteAt (d : List Nat) (i : Nat) : Nat := d.getD i 0

/-! ## Power profile encoder (`PowerBroadcaster`, ant_broadcaster.py lines 86-118) -/

/-- Rolling state of `PowerBroadcaster`: `power_accum` and `event_counter`
(set to 0 in `__init__`), plus the change-detection fields
`lastPowerUpdate`/`lastCadenceUpdate` (set to -1 in `__init__`). -/
structure PowerState where
  power_accum : Nat
  event_counter : Nat
  lastPowerUpdate : Int
  lastCadenceUpdate : Int
deriving DecidableEq

/-- Initial `PowerBroadcaster` state from `__init__`. -/
def PowerState.init : PowerState := ⟨0, 0, -1, -1⟩

/-- `PowerBroadcaster.broadcastPower(power, cadence)`: accumulates
`power_accum += power` (unreduced, as in the Python), builds the 8-byte
page-0x10 payload, then advances `event_counter = (event_counter + 1) % 0xff`
and records the last power/cadence for change-detection logging.
`x & 0xff` is written `x % 256` and `x >> 8` is written `x / 256`. -/
def broadcastPower (s : PowerState) (power cadence : Nat) : PowerState × List Nat :=
  let power_accum := s.power_accum + power
  let data : List Nat :=
    [16,                                 -- ANT_POWER_PROFILE page id 0x10
     (s.event_counter + 128) % 256,      -- (event_counter + 128) & 0xff
     128 ||| 50,                         -- 0x80 | balance, balance = 50
     cadence,                            -- int(cadence)
     power_accum % 256,                  -- power_accum & 0xff
     power_accum / 256 % 256,            -- (power_accum >> 8) & 0xff
     power % 256,                        -- power & 0xff
     power / 256 % 256]                  -- (power >> 8) & 0xff
  ({ power_accum := power_accum,
     event_counter := (s.event_counter + 1) % 255,
     lastPowerUpdate := (power : Int),
     lastCadenceUpdate := (cadence : Int) }, data)

/-- The accumulator value reflected in bytes 4-5 of a Power payload
(little-endian 16-bit field). -/
def accumField (d : List Nat) : Nat := byteAt d 4 + 256 * byteAt d 5

/-- `broadcastPower` iterated from the initial state with power 0, cadence 0
(used to exhibit reachable `event_counter` values). -/
def powerIter : Nat → PowerState
  | 0 => PowerState.init
  | n + 1 => (broadcastPower (powerIter n) 0 0).1

/-! ## Heart-rate profile encoder (`HeartRateBroadcaster`, lines 256-304) -/

/-- `int((60.0 / heart_rate) * 1024)` for `heart_rate ≥ 1`: truncated
division of 61440 by the heart rate (exact for the whole clamped range;
the double computation never lands on the wrong side of an integer there). -/
def beat_interval (heart_rate : Nat) : Nat := 61440 / heart_rate

/-- Rolling state of `HeartRateBroadcaster`: `beat_count`,
`measurement_time` (both 0 in `__init__`) and the change-detection field
`last_heart_rate` (-1 in `__init__`). -/
structure HRState where
  beat_count : Nat
  measurement_time : Nat
  last_heart_rate : Int
deriving DecidableEq

/-- Initial `HeartRateBroadcaster` state from `__init__`. -/
def HRState.init : HRState := ⟨0, 0, -1⟩

/-- `HeartRateBroadcaster.broadcastHeartRate(heart_rate)`: if
`heart_rate > 0`, advances `measurement_time` by the beat interval mod
65536 and `beat_count` mod 256; builds the 8-byte page-0 payload; records
`last_heart_rate` for change-detection logging. -/
def broadcastHeartRate (s : HRState) (heart_rate : Nat) : HRState × List Nat :=
  let s1 := if heart_rate > 0 then
      { s with
        measurement_time := (s.measurement_time + beat_interval heart_rate) % 65536,
        beat_count := (s.beat_count + 1) % 256 }
    else s
  let data : List Nat :=
    [0,                                  -- page 0
     255, 255, 255,                      -- reserved
     s1.measurement_time % 256,          -- beat event time LSB
     s1.measurement_time / 256 % 256,    -- beat event time MSB
     s1.beat_count,                      -- heart beat count
     heart_rate % 256]                   -- int(heart_rate) & 0xff
  ({ s1 with last_heart_rate := (heart_rate : Int) }, data)

/-- `broadcastHeartRate` with heart rate 0 iterated `n` times. -/
def hrIterZero : Nat → HRState → HRState
  | 0, s => s
  | n + 1, s => hrIterZero n (broadcastHeartRate s 0).1

/-- Round-to-nearest of the rational `num / den` (`den > 0`), the reading
of "round(60/heart_rate × 1024)" in the specification; used only to compare
the spec's rounding against the code's truncation. -/
def roundNearest (num den : Nat) : Nat := (2 * num + den) / (2 * den)

/-! ## Speed profile encoder (`SpeedBroadcaster`, lines 307-370) -/

/-- Rolling state of `SpeedBroadcaster`: `measurement_time` (0 in
`__init__`) plus the change-detection fields `last_speed`/`last_distance`
(-1 in `__init__`). -/
structure SpeedState where
  measurement_time : Nat
  last_speed : Int
  last_distance : Int
deriving DecidableEq

/-- Initial `SpeedBroadcaster` state from `__init__`. -/
def SpeedState.init : SpeedState := ⟨0, -1, -1⟩

/-- `int(distance_kettler_units * 100 / 2.105)`: cumulative wheel
revolutions derived fresh from the distance, with
`KETTLER_DISTANCE_UNIT_METERS = 100` and `WHEEL_CIRCUMFERENCE = 2.105`;
the real division with truncation is written as exact natural division
after scaling 2.105 to 2105/1000. -/
def wheelRevs (distance_kettler_units : Nat) : Nat :=
  distance_kettler_units * 100 * 1000 / 2105

/-- `SpeedBroadcaster.broadcastSpeed(speed_tenths_kmh, distance_kettler_units)`:
advances `measurement_time` by 256 mod 65536 whenever
`speed_ms = speed_tenths_kmh / 36.0 > 0` (i.e. the speed argument is
positive), derives the revolution count from the distance argument alone,
and builds the 8-byte legacy speed payload. -/
def broadcastSpeed (s : SpeedState) (speed_tenths_kmh distance_kettler_units : Nat) :
    SpeedState × List Nat :=
  let s1 := if speed_tenths_kmh > 0 then
      { s with measurement_time := (s.measurement_time + 256) % 65536 }
    else s
  let wheel_revs_int := wheelRevs distance_kettler_units % 65536
  let data : List Nat :=
    [255, 255, 255, 255,                 -- reserved
     s1.measurement_time % 256,          -- event time LSB
     s1.measurement_time / 256 % 256,    -- event time MSB
     wheel_revs_int % 256,               -- cumulative revs LSB
     wheel_revs_int / 256 % 256]         -- cumulative revs MSB
  ({ s1 with
     last_speed := (speed_tenths_kmh : Int),
     last_distance := (distance_kettler_units : Int) }, data)

/-! ## Fitness-equipment general data page
(`FitnessEquipmentBroadcaster._broadcastGeneralDataPage`, lines 161-207) -/

/-- `_broadcastGeneralDataPage(elapsed_time_secs, distance_kettler,
speed_tenths_kmh, heart_rate)`: the 8-byte General FE Data Page (0x10).
`speed_mms = int(speed_tenths_kmh * 1000 / 36)` is written as exact
natural division (exact also for the IEEE doubles of the source on the
whole clamped range). This page mutates no rolling state. -/
def generalDataPage (elapsed_time_secs distance_kettler speed_tenths_kmh heart_rate : Nat) :
    List Nat :=
  let distance_m := distance_kettler * 100
  let speed_mms := speed_tenths_kmh * 1000 / 36
  let capabilities := 2 <<< 4 ||| 1 <<< 2 ||| 0
  let fe_state := 3 <<< 4
  [16,                                   -- GENERAL_DATA_PAGE 0x10
   21,                                   -- stationary bike equipment type
   elapsed_time_secs * 4 % 256,          -- time in 0.25 s, rollover 64 s
   distance_m % 256,                     -- distance in m, rollover 256 m
   speed_mms % 256,                      -- speed LSB
   speed_mms / 256 % 256,                -- speed MSB
   (if heart_rate > 0 then heart_rate else 255),  -- HR or invalid
   capabilities ||| fe_state]            -- capabilities + state

/-! ## Transmit loop (`PowerWriter.__sendInLoop`, ant_writer.py lines 65-84)

The loop body performs, per cycle, sends on the four broadcasters in
source order (`self.ant`, `self.hrAnt`, `self.speedAnt`, `self.feAnt`);
a raised exception sets `self.died = True` and leaves the loop; the
`finally` block then closes the four broadcasters in the same order.
The model records the sequence of send/close events; whether each send
raises is an oracle supplied per cycle, and the number of cycles before
`self.running` turns false is the length of the oracle list. -/

/-- The four broadcast channels, in the order the loop body uses them. -/
inductive Chan
  | power
  | hr
  | speed
  | fe
deriving DecidableEq

/-- Observable events of the transmit loop: a broadcast send on a channel,
or a `close()` of a channel. -/
inductive LoopEvent
  | send (c : Chan)
  | close (c : Chan)
deriving DecidableEq

/-- Per-cycle oracle: whether each of the four sends completes without
raising. -/
structure CycleOutcome where
  powerOk : Bool
  hrOk : Bool
  speedOk : Bool
  feOk : Bool
deriving DecidableEq

/-- One iteration of the `while self.running` body: sends are attempted in
the order Power, HeartRate, Speed, FitnessEquipment; the first raising
send ends the cycle. Returns the events of the cycle and whether it
raised. -/
def cycleTrace (o : CycleOutcome) : List LoopEvent × Bool :=
  if o.powerOk = false then ([.send .power], true)
  else if o.hrOk = false then ([.send .power, .send .hr], true)
  else if o.speedOk = false then ([.send .power, .send .hr, .send .speed], true)
  else ([.send .power, .send .hr, .send .speed, .send .fe], o.feOk = false)

/-- The `while self.running: ... except Exception: self.died = True` part:
cycles run until the oracle list is exhausted (i.e. `running` became
false) or a cycle raises, in which case `died` is set and iteration
stops. Returns all send events and the `died` flag. -/
def sendLoop : List CycleOutcome → List LoopEvent × Bool
  | [] => ([], false)
  | o :: rest =>
    if (cycleTrace o).2 then ((cycleTrace o).1, true)
    else ((cycleTrace o).1 ++ (sendLoop rest).1, (sendLoop rest).2)

/-- The `finally` block: `self.ant.close(); self.hrAnt.close();
self.speedAnt.close(); self.feAnt.close()`. -/
def closeAll : List LoopEvent := [.close .power, .close .hr, .close .speed, .close .fe]

/-- `PowerWriter.__sendInLoop`: the loop followed unconditionally by the
`finally` close of all four broadcasters. -/
def sendInLoop (outcomes : List CycleOutcome) : List LoopEvent × Bool :=
  ((sendLoop outcomes).1 ++ closeAll, (sendLoop outcomes).2)

/-! ## Shared model and clamping (`ant_writer.py` lines 12-18 and 86-93,
`components/ant.py`) -/

/-- `KettlerModel` (components/ant.py): the shared telemetry snapshot.
Fields are `Int` since the upstream writer may supply negative values. -/
structure KettlerModel where
  power : Int
  cadence : Int
  heart_rate : Int
  speed : Int
  distance : Int
  energy : Int
  elapsed_time : Int
deriving DecidableEq

/-- `checkRange(min, value, max)` (ant_writer.py lines 12-18). -/
def checkRange (min value max : Int) : Int :=
  if value < min then min
  else if value > max then max
  else value

/-- `PowerWriter.updateModel(model)` (ant_writer.py lines 86-93): stores
every field of the input snapshot into the shared model, clamped; the
previous shared model is fully overwritten. -/
def updateModel (model : KettlerModel) : KettlerModel where
  power := checkRange 0 model.power 2048
  cadence := checkRange 0 model.cadence 255
  heart_rate := checkRange 0 model.heart_rate 255
  speed := checkRange 0 model.speed 9999
  distance := checkRange 0 model.distance 65535
  energy := checkRange 0 model.energy 65535
  elapsed_time := checkRange 0 model.elapsed_time 65535

/-- All fields of a snapshot lie within their clamp ranges. -/
def modelInRange (m : KettlerModel) : Prop :=
  0 ≤ m.power ∧ m.power ≤ 2048 ∧
  0 ≤ m.cadence ∧ m.cadence ≤ 255 ∧
  0 ≤ m.heart_rate ∧ m.heart_rate ≤ 255 ∧
  0 ≤ m.speed ∧ m.speed ≤ 9999 ∧
  0 ≤ m.distance ∧ m.distance ≤ 65535 ∧
  0 ≤ m.energy ∧ m.energy ≤ 65535 ∧
  0 ≤ m.elapsed_time ∧ m.elapsed_time ≤ 65535

instance (m : KettlerModel) : Decidable (modelInRange m) := by
  unfold modelInRange
  infer_instance

/-! ## Channel close (`AntBroadcaster.close`, ant_broadcaster.py lines
68-74, and `Ant.close_channel`, ant_support/ant.py lines 312-323) -/

/-- The only exception type `Ant.close_channel` raises:
`AntWrongResponseException` (any error from the underlying openant
channel close is caught and re-raised wrapped in it). -/
inductive AntError
  | wrongResponse
deriving DecidableEq

/-- `Ant.close_channel(channel)`: raises `AntWrongResponseException` when
the channel is not in `self._channels`, or when the underlying openant
`channel.close()` raises (modelled by the `radioCloseRaises` oracle);
otherwise succeeds. -/
def close_channel (assigned : List Nat) (radioCloseRaises : Bool) (channel : Nat) :
    Except AntError Unit :=
  if channel ∉ assigned then .error .wrongResponse
  else if radioCloseRaises then .error .wrongResponse
  else .ok ()

/-- The part of an `AntBroadcaster`'s state that `close()` touches. -/
structure BroadcasterState where
  channel : Nat
  stopped : Bool
deriving DecidableEq

/-- `AntBroadcaster.close()`: sets `self.stopped = True`, then calls
`self._ant.close_channel(self.channel)` swallowing
`AntWrongResponseException` — the only exception that call can raise. -/
def AntBroadcaster.close (b : BroadcasterState) (assigned : List Nat)
    (radioCloseRaises : Bool) : Except AntError BroadcasterState :=
  let b1 : BroadcasterState := { b with stopped := true }
  match close_channel assigned radioCloseRaises b.channel with
  | .ok _ => .ok b1
  | .error .wrongResponse => .ok b1

/-! ## Serial status parsing (`Kettler.readModel`, kettler_serial.py
lines 114-142)

Strings are handled as their character lists; Python's `str.split()`
(split on whitespace runs, dropping empty segments), `str.split(':')`
and `int(...)` on decimal strings are embedded as structural functions
so that everything evaluates inside the kernel. `int(...)` failure,
which in the source raises `ValueError` out of `readModel`, is modelled
as `none`. -/

/-- Accumulator pass of decimal parsing: `none` on any non-digit. -/
def digitsToNat : List Char → Nat → Option Nat
  | [], acc => some acc
  | c :: cs, acc =>
    if c.isDigit then digitsToNat cs (acc * 10 + (c.toNat - 48)) else none

/-- Python `int(s)` on a decimal string: optional sign, then one or more
digits; anything else fails. -/
def pyInt (cs : List Char) : Option Int :=
  match cs with
  | '-' :: rest =>
    if rest = [] then none else (digitsToNat rest 0).map (fun n => -(n : Int))
  | '+' :: rest =>
    if rest = [] then none else (digitsToNat rest 0).map (fun n => (n : Int))
  | _ =>
    if cs = [] then none else (digitsToNat cs 0).map (fun n => (n : Int))

/-- Worker for `pySplitWs`, carrying the current segment reversed. -/
def splitWsAux : List Char → List Char → List (List Char)
  | [], cur => if cur = [] then [] else [cur.reverse]
  | c :: cs, cur =>
    if c.isWhitespace then
      if cur = [] then splitWsAux cs [] else cur.reverse :: splitWsAux cs []
    else splitWsAux cs (c :: cur)

/-- Python `statusLine.split()`: split on whitespace runs, no empty
segments. -/
def pySplitWs (cs : List Char) : List (List Char) := splitWsAux cs []

/-- Worker for `splitColon`. -/
def splitColonAux : List Char → List Char → List (List Char)
  | [], cur => [cur.reverse]
  | c :: cs, cur =>
    if c = ':' then cur.reverse :: splitColonAux cs []
    else splitColonAux cs (c :: cur)

/-- Python `time_str.split(':')`: split on every colon, keeping empty
segments. -/
def splitColon (cs : List Char) : List (List Char) := splitColonAux cs []

/-- The MM:SS parse of `readModel`: `int(parts[0]) * 60 + int(parts[1])`,
with `ValueError`/`IndexError` caught and mapped to 0. -/
def parseElapsedTime (time_str : List Char) : Int :=
  match splitColon time_str with
  | p0 :: p1 :: _ =>
    match pyInt p0, pyInt p1 with
    | some a, some b => a * 60 + b
    | _, _ => 0
  | _ => 0

/-- `Kettler.readModel` after the serial exchange: splits the status line
into segments; with exactly 8 segments, parses
`heartRate cadence speed distance destPower energy timeElapsed realPower`
and builds a `KettlerModel` whose `power` is `realPower` (the parsed
`destPower` is bound and dropped, as in the source); with any other
segment count returns `None`. -/
def readModel (statusLine : List Char) : Option KettlerModel :=
  match pySplitWs statusLine with
  | [s0, s1, s2, s3, s4, s5, s6, s7] =>
    match pyInt s0, pyInt s1, pyInt s2, pyInt s3, pyInt s4, pyInt s5, pyInt s7 with
    | some heart_rate, some cadence, some speed, some distance, some _destPower,
      some energy, some realPower =>
      some { power := realPower
             cadence := cadence
             heart_rate := heart_rate
             speed := speed
             distance := distance
             energy := energy
             elapsed_time := parseElapsedTime s6 }
    | _, _, _, _, _, _, _ => none
  | _ => none

/-! ## Claims -/

/-- C1: on every call to `PowerBroadcaster.broadcastPower` with power in
the clamped range [0, 2048], bytes 4-5 of the payload hold
`(power_accum + power) mod 65536` little-endian, and hence each call
increments the accumulator, as reflected in bytes 4-5, by exactly
`power mod 65536`. -/
theorem power_accum_bytes_step (s : PowerState) (power cadence power2 cadence2 : Nat)
    (hp : power ≤ 2048) (hp2 : power2 ≤ 2048) :
    accumField (broadcastPower s power cadence).2 = (s.power_accum + power) % 65536 ∧
    accumField (broadcastPower (broadcastPower s power cadence).1 power2 cadence2).2
      = (accumField (broadcastPower s power cadence).2 + power2 % 65536) % 65536 := by
  simp only [broadcastPower, accumField, byteAt, List.getD_cons_succ, List.getD_cons_zero]
  omega

/-- Witness for C1 at a concrete state and inputs. -/
theorem power_accum_bytes_step_wit :
    accumField (broadcastPower ⟨5, 3, -1, -1⟩ 100 90).2 = (5 + 100) % 65536 ∧
    accumField (broadcastPower (broadcastPower ⟨5, 3, -1, -1⟩ 100 90).1 200 85).2
      = (accumField (broadcastPower ⟨5, 3, -1, -1⟩ 100 90).2 + 200 % 65536) % 65536 :=
  power_accum_bytes_step ⟨5, 3, -1, -1⟩ 100 90 200 85 (by decide) (by decide)

/-- C2 (amended): for every reachable `event_counter` (0..254 — and the
counter stays in that range), byte 1 of the Power payload equals
`(event_counter + 128) mod 256`, not mod 255 as the claim states. -/
theorem power_event_byte_mod256 (s : PowerState) (power cadence : Nat)
    (h : s.event_counter ≤ 254) :
    byteAt (broadcastPower s power cadence).2 1 = (s.event_counter + 128) % 256 ∧
    (broadcastPower s power cadence).1.event_counter ≤ 254 := by
  constructor
  · simp [broadcastPower, byteAt]
  · simp only [broadcastPower]
    omega

/-- Witness for C2's amended theorem at a concrete reachable state. -/
theorem power_event_byte_mod256_wit :
    byteAt (broadcastPower ⟨0, 130, -1, -1⟩ 250 80).2 1 = (130 + 128) % 256 ∧
    (broadcastPower ⟨0, 130, -1, -1⟩ 250 80).1.event_counter ≤ 254 :=
  power_event_byte_mod256 ⟨0, 130, -1, -1⟩ 250 80 (by decide)

set_option maxRecDepth 4000 in
/-- Counterexample to C2 as stated: `event_counter = 127` is reachable
(after 127 calls from the initial state), and there byte 1 is
`(127 + 128) mod 256 = 255`, while `(127 + 128) mod 255 = 0`. -/
theorem power_event_byte_cex :
    (powerIter 127).event_counter = 127 ∧
    byteAt (broadcastPower (powerIter 127) 0 0).2 1 = 255 ∧
    ((powerIter 127).event_counter + 128) % 255 = 0 ∧
    (255 : Nat) ≠ 0 := by decide

/-- C3 (amended): for heart_rate in [1, 255], one call to
`HeartRateBroadcaster.broadcastHeartRate` advances `measurement_time` by
exactly `⌊60/heart_rate × 1024⌋ = 61440 / heart_rate` (truncated, not
rounded to nearest) in 1/1024-second units mod 65536, and increments
`beat_count` by 1 mod 256. -/
theorem hr_advance_truncated (s : HRState) (heart_rate : Nat)
    (h1 : 1 ≤ heart_rate) (h2 : heart_rate ≤ 255) :
    (broadcastHeartRate s heart_rate).1.measurement_time
      = (s.measurement_time + 61440 / heart_rate) % 65536 ∧
    (broadcastHeartRate s heart_rate).1.beat_count = (s.beat_count + 1) % 256 := by
  have hpos : heart_rate > 0 := h1
  simp [broadcastHeartRate, beat_interval, hpos]

/-- Witness for C3's amended theorem at heart rate 73. -/
theorem hr_advance_truncated_wit :
    (broadcastHeartRate ⟨2, 10, -1⟩ 73).1.measurement_time = (10 + 61440 / 73) % 65536 ∧
    (broadcastHeartRate ⟨2, 10, -1⟩ 73).1.beat_count = (2 + 1) % 256 :=
  hr_advance_truncated ⟨2, 10, -1⟩ 73 (by decide) (by decide)

/-- Counterexample to C3 as stated: at heart_rate = 9 the code advances
`measurement_time` by `int(61440/9) = 6826`, while
`round(60/9 × 1024) = 6827`. -/
theorem hr_advance_cex :
    (broadcastHeartRate ⟨0, 0, -1⟩ 9).1.measurement_time = 6826 ∧
    roundNearest 61440 9 = 6827 ∧
    (6826 : Nat) ≠ 6827 := by decide

/-- C4: any number of zero-heart-rate calls leaves `measurement_time` and
`beat_count` unchanged from every encoder state, and every call with
heart_rate = 60 advances `measurement_time` by exactly 1024 mod 65536. -/
theorem hr_zero_idempotent_sixty_kick (s : HRState) (n : Nat) :
    (hrIterZero n s).measurement_time = s.measurement_time ∧
    (hrIterZero n s).beat_count = s.beat_count ∧
    (broadcastHeartRate s 60).1.measurement_time = (s.measurement_time + 1024) % 65536 := by
  refine ⟨?_, ?_, ?_⟩
  · induction n generalizing s with
    | zero => rfl
    | succ n ih => simpa [hrIterZero, broadcastHeartRate] using ih _
  · induction n generalizing s with
    | zero => rfl
    | succ n ih => simpa [hrIterZero, broadcastHeartRate] using ih _
  · simp [broadcastHeartRate, beat_interval]

/-- C5: bytes 6-7 of the Speed payload are a pure function of the
distance argument alone (identical across states and speeds, hence across
repeated encodes), equal to the little-endian encoding of
`⌊distance × 100 / 2.105⌋ mod 65536`; at distance 10 the revolutions are
475 and the bytes are (219, 1). -/
theorem speed_revs_pure_of_distance (s t : SpeedState) (v w d : Nat) :
    byteAt (broadcastSpeed s v d).2 6 = wheelRevs d % 65536 % 256 ∧
    byteAt (broadcastSpeed s v d).2 7 = wheelRevs d % 65536 / 256 % 256 ∧
    byteAt (broadcastSpeed s v d).2 6 = byteAt (broadcastSpeed t w d).2 6 ∧
    byteAt (broadcastSpeed s v d).2 7 = byteAt (broadcastSpeed t w d).2 7 ∧
    wheelRevs 10 = 475 ∧
    byteAt (broadcastSpeed s v 10).2 6 = 219 ∧
    byteAt (broadcastSpeed s v 10).2 7 = 1 := by
  refine ⟨?_, ?_, ?_, ?_, ?_, ?_, ?_⟩ <;>
    simp [broadcastSpeed, byteAt, wheelRevs]

/-- C6 (amended): the General FE Data Page encodes byte 2 =
`(elapsed × 4) mod 256`, byte 3 = `(distance × 100) mod 256`, bytes 4-5 =
`⌊speed_tenths_kmh × 1000 / 36⌋` (truncated, not rounded to nearest)
little-endian, and byte 6 = heart_rate with 0xFF exactly on the
zero-heart-rate branch. -/
theorem fe_general_page_fields (e d v h : Nat)
    (he : e ≤ 65535) (hd : d ≤ 65535) (hv : v ≤ 9999) (hh : h ≤ 255) :
    byteAt (generalDataPage e d v h) 2 = e * 4 % 256 ∧
    byteAt (generalDataPage e d v h) 3 = d * 100 % 256 ∧
    byteAt (generalDataPage e d v h) 4 = v * 1000 / 36 % 256 ∧
    byteAt (generalDataPage e d v h) 5 = v * 1000 / 36 / 256 % 256 ∧
    byteAt (generalDataPage e d v h) 6 = (if h = 0 then 255 else h) := by
  refine ⟨by simp [generalDataPage, byteAt], by simp [generalDataPage, byteAt],
    by simp [generalDataPage, byteAt], by simp [generalDataPage, byteAt], ?_⟩
  rcases Nat.eq_zero_or_pos h with h0 | h0
  · simp [generalDataPage, byteAt, h0]
  · simp [generalDataPage, byteAt, h0, Nat.pos_iff_ne_zero.mp h0]

/-- Witness for C6's amended theorem at a concrete snapshot. -/
theorem fe_general_page_fields_wit :
    byteAt (generalDataPage 120 5 250 140) 2 = 120 * 4 % 256 ∧
    byteAt (generalDataPage 120 5 250 140) 3 = 5 * 100 % 256 ∧
    byteAt (generalDataPage 120 5 250 140) 4 = 250 * 1000 / 36 % 256 ∧
    byteAt (generalDataPage 120 5 250 140) 5 = 250 * 1000 / 36 / 256 % 256 ∧
    byteAt (generalDataPage 120 5 250 140) 6 = (if 140 = 0 then 255 else 140) :=
  fe_general_page_fields 120 5 250 140 (by decide) (by decide) (by decide) (by decide)

/-- Counterexample to C6 as stated: at speed_tenths_kmh = 1 the code's
speed field is `int(1000/36) = 27`, while `round(1 × 1000/36) = 28`. -/
theorem fe_general_speed_cex :
    byteAt (generalDataPage 0 0 1 0) 4 + 256 * byteAt (generalDataPage 0 0 1 0) 5 = 27 ∧
    roundNearest (1 * 1000) 36 = 28 ∧
    (27 : Nat) ≠ 28 := by decide

/-- The full in-order send sequence of one loop cycle. -/
def fullCycle : List LoopEvent := [.send .power, .send .hr, .send .speed, .send .fe]

/-- A cycle never emits a close event (closes happen only in the
`finally` block). -/
theorem close_notin_cycle (o : CycleOutcome) (c : Chan) :
    LoopEvent.close c ∉ (cycleTrace o).1 := by
  obtain ⟨p, h, s, f⟩ := o
  cases c <;> cases p <;> cases h <;> cases s <;> cases f <;> decide

/-- The send loop itself never emits a close event. -/
theorem close_notin_sendLoop (outs : List CycleOutcome) (c : Chan) :
    LoopEvent.close c ∉ (sendLoop outs).1 := by
  induction outs with
  | nil => simp [sendLoop]
  | cons o rest ih =>
    intro hmem
    unfold sendLoop at hmem
    by_cases hr : (cycleTrace o).2 = true
    · rw [if_pos hr] at hmem
      exact close_notin_cycle o c hmem
    · rw [if_neg hr] at hmem
      rcases List.mem_append.mp hmem with hm | hm
      · exact close_notin_cycle o c hm
      · exact ih hm

/-- C7: each cycle sends on the four broadcasters in the fixed order
Power, HeartRate, Speed, FitnessEquipment (a completed cycle is exactly
the full sequence, a raising cycle a prefix of it); a raised send marks
the loop died and stops iteration; and the routine always returns the
loop's events followed by the close of all four broadcasters, with no
close before that point. -/
theorem transmit_loop_order_cleanup (outs : List CycleOutcome) (o : CycleOutcome)
    (rest : List CycleOutcome) :
    ((cycleTrace o).2 = false → (cycleTrace o).1 = fullCycle) ∧
    (cycleTrace o).1 = List.take (cycleTrace o).1.length fullCycle ∧
    ((cycleTrace o).2 = true → sendLoop (o :: rest) = ((cycleTrace o).1, true)) ∧
    sendInLoop outs = ((sendLoop outs).1 ++ closeAll, (sendLoop outs).2) ∧
    (∀ c, LoopEvent.close c ∉ (sendLoop outs).1) := by
  refine ⟨?_, ?_, ?_, rfl, fun c => close_notin_sendLoop outs c⟩
  · obtain ⟨p, h, s, f⟩ := o
    cases p <;> cases h <;> cases s <;> cases f <;> decide
  · obtain ⟨p, h, s, f⟩ := o
    cases p <;> cases h <;> cases s <;> cases f <;> decide
  · obtain ⟨p, h, s, f⟩ := o
    cases p <;> cases h <;> cases s <;> cases f <;> simp [sendLoop, cycleTrace]

/-- Witness for C7: a clean cycle sends all four in order; a heart-rate
send failure in the first of two cycles ends the loop after the Power and
HeartRate sends with the died flag set. -/
theorem transmit_loop_order_cleanup_wit :
    (cycleTrace ⟨true, true, true, true⟩).1
      = [.send .power, .send .hr, .send .speed, .send .fe] ∧
    sendLoop [⟨true, false, true, true⟩, ⟨true, true, true, true⟩]
      = ([.send .power, .send .hr], true) := by
  constructor
  · exact ((transmit_loop_order_cleanup [] ⟨true, true, true, true⟩ []).1 (by decide)).trans
      (by decide)
  · exact ((transmit_loop_order_cleanup [] ⟨true, false, true, true⟩
      [⟨true, true, true, true⟩]).2.2.1 (by decide)).trans (by decide)

/-- `checkRange` always lands inside `[min, max]` when the bounds are
ordered. -/
theorem checkRange_bounds (min value max : Int) (hmm : min ≤ max) :
    min ≤ checkRange min value max ∧ checkRange min value max ≤ max := by
  unfold checkRange
  split_ifs <;> omega

/-- C8: for every input model, including out-of-range values,
`updateModel` clamps every field into its range without error — after
every call all fields of the shared model lie within their clamp ranges;
power 99999 stores 2048, and a negative heart rate stores 0. -/
theorem updateModel_clamps (m : KettlerModel) :
    modelInRange (updateModel m) ∧
    (updateModel { m with power := 99999 }).power = 2048 ∧
    (m.heart_rate < 0 → (updateModel m).heart_rate = 0) := by
  refine ⟨?_, ?_, fun hneg => ?_⟩
  · exact ⟨(checkRange_bounds 0 m.power 2048 (by norm_num)).1,
      (checkRange_bounds 0 m.power 2048 (by norm_num)).2,
      (checkRange_bounds 0 m.cadence 255 (by norm_num)).1,
      (checkRange_bounds 0 m.cadence 255 (by norm_num)).2,
      (checkRange_bounds 0 m.heart_rate 255 (by norm_num)).1,
      (checkRange_bounds 0 m.heart_rate 255 (by norm_num)).2,
      (checkRange_bounds 0 m.speed 9999 (by norm_num)).1,
      (checkRange_bounds 0 m.speed 9999 (by norm_num)).2,
      (checkRange_bounds 0 m.distance 65535 (by norm_num)).1,
      (checkRange_bounds 0 m.distance 65535 (by norm_num)).2,
      (checkRange_bounds 0 m.energy 65535 (by norm_num)).1,
      (checkRange_bounds 0 m.energy 65535 (by norm_num)).2,
      (checkRange_bounds 0 m.elapsed_time 65535 (by norm_num)).1,
      (checkRange_bounds 0 m.elapsed_time 65535 (by norm_num)).2⟩
  · simp [updateModel, checkRange]
  · simp [updateModel, checkRange, hneg]

/-- Witness for C8 at a concrete out-of-range snapshot. -/
theorem updateModel_clamps_wit :
    modelInRange (updateModel ⟨99999, 90, -5, 250, 5, 50, 120⟩) ∧
    (updateModel { (⟨99999, 90, -5, 250, 5, 50, 120⟩ : KettlerModel) with
        power := 99999 }).power = 2048 ∧
    (updateModel ⟨99999, 90, -5, 250, 5, 50, 120⟩).heart_rate = 0 :=
  ⟨(updateModel_clamps ⟨99999, 90, -5, 250, 5, 50, 120⟩).1,
   (updateModel_clamps ⟨99999, 90, -5, 250, 5, 50, 120⟩).2.1,
   (updateModel_clamps ⟨99999, 90, -5, 250, 5, 50, 120⟩).2.2 (by decide)⟩

/-- C9: `AntBroadcaster.close` never propagates a failure — it returns
normally for every channel/assignment/radio outcome, a second close on
the same broadcaster also returns normally, and this is not vacuous:
the underlying `close_channel` does raise in adverse conditions. -/
theorem broadcaster_close_swallows (b : BroadcasterState) (assigned : List Nat)
    (r1 r2 : Bool) :
    AntBroadcaster.close b assigned r1 = .ok { b with stopped := true } ∧
    AntBroadcaster.close { b with stopped := true } assigned r2
      = .ok { b with stopped := true } ∧
    close_channel [] true b.channel = .error .wrongResponse := by
  refine ⟨?_, ?_, by simp [close_channel]⟩
  · cases hc : close_channel assigned r1 b.channel with
    | ok u => simp [AntBroadcaster.close, hc]
    | error e => cases e; simp [AntBroadcaster.close, hc]
  · cases hc : close_channel assigned r2 b.channel with
    | ok u => simp [AntBroadcaster.close, hc]
    | error e => cases e; simp [AntBroadcaster.close, hc]

/-- C10: for every well-formed 8-field status line, `readModel` builds
its model with `power` taken from the eighth field (`realPower`), and the
fifth field (`destPower`) is discarded: two lines differing only there
parse to the same model. -/
theorem readModel_power_from_realPower (line line2 : List Char)
    (g0 g1 g2 g3 g4 g4b g5 g6 g7 : List Char)
    (hr cad spd dist dp dpb en rp : Int)
    (hsplit : pySplitWs line = [g0, g1, g2, g3, g4, g5, g6, g7])
    (hsplit2 : pySplitWs line2 = [g0, g1, g2, g3, g4b, g5, g6, g7])
    (h0 : pyInt g0 = some hr) (h1 : pyInt g1 = some cad) (h2 : pyInt g2 = some spd)
    (h3 : pyInt g3 = some dist) (h4 : pyInt g4 = some dp) (h4b : pyInt g4b = some dpb)
    (h5 : pyInt g5 = some en) (h7 : pyInt g7 = some rp) :
    readModel line = some { power := rp, cadence := cad, heart_rate := hr, speed := spd,
                            distance := dist, energy := en,
                            elapsed_time := parseElapsedTime g6 } ∧
    readModel line = readModel line2 := by
  unfold readModel
  rw [hsplit, hsplit2]
  simp only [h0, h1, h2, h3, h4, h4b, h5, h7]
  exact ⟨trivial, trivial⟩

/-- Witness for C10 on the documented example status line
`000 052 095 000 030 0001 00:12 030`, and the same line with target power
099 in place of 030. -/
theorem readModel_power_from_realPower_wit :
    readModel "000 052 095 000 030 0001 00:12 030".data
      = some { power := 30, cadence := 52, heart_rate := 0, speed := 95,
               distance := 0, energy := 1, elapsed_time := 12 } ∧
    readModel "000 052 095 000 030 0001 00:12 030".data
      = readModel "000 052 095 000 099 0001 00:12 030".data := by
  have h := readModel_power_from_realPower
    "000 052 095 000 030 0001 00:12 030".data
    "000 052 095 000 099 0001 00:12 030".data
    ['0', '0', '0'] ['0', '5', '2'] ['0', '9', '5'] ['0', '0', '0'] ['0', '3', '0']
    ['0', '9', '9'] ['0', '0', '0', '1'] ['0', '0', ':', '1', '2'] ['0', '3', '0']
    0 52 95 0 30 99 1 30
    (by decide) (by decide) (by decide) (by decide) (by decide) (by decide)
    (by decide) (by decide) (by decide) (by decide)
  exact ⟨h.1.trans (by decide), h.2⟩

end KettlerToAnt
